import Mathlib

/-!
Verification of the Snowflake trial-to-trial table migrator
(`snowflakeMig.py`): a shallow embedding of the per-table migration
pipeline `migrate_tables_with_user_stage`, the DDL rewriter
`rewrite_table_ddl`, the grant/ownership replay helpers
(`apply_role_grants`, `transfer_ownership`), and the pre-flight table
resolution in `main`, together with theorems settling the frozen claims
about the program.

Remote SQL calls are modelled by an environment record (`TableEnv`): each
call site that can raise is an `Except String` field, calls whose
exceptions the source swallows are plain values, and the side effects the
pipeline performs are recorded in an action trace (`Act`).  Machine
strings are Lean `String`s; the Python regular-expression substitutions
of `rewrite_table_ddl` are implemented character by character with the
same leftmost, non-overlapping semantics.
-/

/- ────────────────────────── character utilities ───────────────────────── -/

/-- The double-quote character (written by code to avoid escapes). -/
def dqc : Char := Char.ofNat 34

/-- The single-quote character. -/
def sqc : Char := Char.ofNat 39

/-- The double-quote character as a one-character string. -/
def dqs : String := String.mk [dqc]

/-- The single-quote character as a one-character string. -/
def sqs : String := String.mk [sqc]

/-- Case-insensitive character equality, as Python `re.IGNORECASE` treats
ASCII letters. -/
def lcEq (a b : Char) : Bool := a.toLower == b.toLower

/-- Python `\s` on ASCII input: space, tab, newline, carriage return,
vertical tab, form feed. -/
def isPySpace (c : Char) : Bool :=
  c.toNat == 32 || c.toNat == 9 || c.toNat == 10 || c.toNat == 13 ||
  c.toNat == 11 || c.toNat == 12

/-- Python `\w` on ASCII input: letters, digits, underscore. -/
def isWordChar (c : Char) : Bool :=
  (65 ≤ c.toNat && c.toNat ≤ 90) || (97 ≤ c.toNat && c.toNat ≤ 122) ||
  (48 ≤ c.toNat && c.toNat ≤ 57) || c.toNat == 95

/-- Case-insensitive "the pattern matches at the head of the input". -/
def ciHead : List Char → List Char → Bool
  | [], _ => true
  | _ :: _, [] => false
  | p :: ps, c :: cs => lcEq p c && ciHead ps cs

/-- `hasSub pat l`: `pat` occurs as a contiguous sublist of `l`. -/
def hasSub (pat : List Char) : List Char → Bool
  | [] => pat.isEmpty
  | c :: cs => pat.isPrefixOf (c :: cs) || hasSub pat cs

/-- Case-insensitive occurrence of `pat` somewhere in the input. -/
def hasSubCI (pat : List Char) : List Char → Bool
  | [] => pat.isEmpty
  | c :: cs => ciHead pat (c :: cs) || hasSubCI pat cs

/-- Substring test on strings (Python `in`). -/
def containsSub (pat s : String) : Bool := hasSub pat.data s.data

/-- Python `str.lower` on ASCII input. -/
def strLower (s : String) : String := String.mk (s.data.map Char.toLower)

/-- Python `str.upper` on ASCII input. -/
def strUpper (s : String) : String := String.mk (s.data.map Char.toUpper)

/- ─────────────────────── rewrite_table_ddl (lines 285-295) ─────────────────────
The Python source applies three `re.sub` substitutions in order:
  (1) `"SRC_DB"."SRC_SCHEMA"."([^"]+)"` → `"TGT_DB"."TGT_SCHEMA"."\1"`, IGNORECASE
  (2) `\bCREATE TABLE\b` → `CREATE OR REPLACE TABLE`, IGNORECASE
  (3) `COMMENT\s*=\s*'.*?'` → ``, IGNORECASE | DOTALL
Each is implemented below as a left-to-right scan that, at the leftmost
position where the pattern matches, replaces the match and resumes after
it, exactly as `re.sub` does for these patterns (whose matches at a given
position are uniquely determined: the `\s*` runs are followed by
non-space characters and `.*?` is lazy, and `[^"]+` is followed by `"`). -/

/-- Attempt to match `"db"."schema"."name"` (case-insensitive on the
namespace, `name` any nonempty run without a double quote) at the head of
the input.  Returns the captured name and total matched length. -/
def matchNS (db sch : List Char) (cs : List Char) : Option (List Char × Nat) :=
  match cs with
  | c :: rest =>
    if c == dqc && ciHead db rest then
      match rest.drop db.length with
      | a :: b :: c2 :: r2 =>
        if a == dqc && b == '.' && c2 == dqc && ciHead sch r2 then
          match r2.drop sch.length with
          | d :: e :: f :: r4 =>
            if d == dqc && e == '.' && f == dqc then
              let name := r4.takeWhile (fun x => x != dqc)
              if name.isEmpty then none
              else
                match r4.drop name.length with
                | g :: _ =>
                  if g == dqc then
                    some (name, 1 + db.length + 3 + sch.length + 3 + name.length + 1)
                  else none
                | [] => none
            else none
          | _ => none
        else none
      | _ => none
    else none
  | [] => none

/-- The replacement text for a matched namespace reference. -/
def nsRepl (tdb tsch name : List Char) : List Char :=
  dqc :: tdb ++ dqc :: '.' :: dqc :: tsch ++ dqc :: '.' :: dqc :: name ++ [dqc]

/-- Substitution (1): rewrite every quoted fully-qualified source-namespace
reference to the target namespace. -/
def subNS (db sch tdb tsch : List Char) : List Char → List Char
  | [] => []
  | c :: cs =>
    match matchNS db sch (c :: cs) with
    | some (name, n) => nsRepl tdb tsch name ++ subNS db sch tdb tsch (cs.drop (n - 1))
    | none => c :: subNS db sch tdb tsch cs
termination_by cs => cs.length
decreasing_by
  all_goals simp [List.length_drop]
  all_goals omega

/-- The literal pattern `CREATE TABLE` as characters. -/
def ctPat : List Char := ['C','R','E','A','T','E',' ','T','A','B','L','E']

/-- The replacement `CREATE OR REPLACE TABLE` as characters. -/
def ctRepl : List Char :=
  ['C','R','E','A','T','E',' ','O','R',' ','R','E','P','L','A','C','E',' ','T','A','B','L','E']

/-- Match `CREATE TABLE` (case-insensitive) at the head, requiring a word
boundary after (the boundary before is checked by the caller's scan). -/
def matchCT (cs : List Char) : Bool :=
  ciHead ctPat cs &&
    (match cs.drop 12 with
     | [] => true
     | x :: _ => !isWordChar x)

/-- Substitution (2): replace every word-boundary occurrence of
`CREATE TABLE` (case-insensitive) by `CREATE OR REPLACE TABLE`.
`prevWord` records whether the previous character was a word character. -/
def subCT (prevWord : Bool) : List Char → List Char
  | [] => []
  | c :: cs =>
    if !prevWord && matchCT (c :: cs) then
      ctRepl ++ subCT true (cs.drop 11)
    else c :: subCT (isWordChar c) cs
termination_by cs => cs.length
decreasing_by
  all_goals simp [List.length_drop]
  all_goals omega

/-- The literal pattern `COMMENT` as characters. -/
def cmPat : List Char := ['C','O','M','M','E','N','T']

/-- Match `COMMENT\s*=\s*'.*?'` (case-insensitive, dot matches newline,
lazy up to the first closing quote) at the head of the input; returns the
total matched length. -/
def matchCM (cs : List Char) : Option Nat :=
  if ciHead cmPat cs then
    let r1 := cs.drop 7
    let w1 := (r1.takeWhile isPySpace).length
    match r1.drop w1 with
    | c :: r2 =>
      if c == '=' then
        let w2 := (r2.takeWhile isPySpace).length
        match r2.drop w2 with
        | q :: r3 =>
          if q == sqc then
            match r3.findIdx? (fun x => x == sqc) with
            | some k => some (7 + w1 + 1 + w2 + 1 + k + 1)
            | none => none
          else none
        | [] => none
      else none
    | [] => none
  else none

/-- Substitution (3): delete every occurrence of `COMMENT = '...'`. -/
def subCM : List Char → List Char
  | [] => []
  | c :: cs =>
    match matchCM (c :: cs) with
    | some n => subCM (cs.drop (n - 1))
    | none => c :: subCM cs
termination_by cs => cs.length
decreasing_by
  all_goals simp [List.length_drop]
  all_goals omega

/-- `rewrite_table_ddl` (source lines 285-295): force quoted namespace
references to the target namespace, force `CREATE OR REPLACE TABLE`, and
strip `COMMENT='...'` attributes. -/
def rewrite_table_ddl (ddl srcDb srcSchema tgtDb tgtSchema : String) : String :=
  String.mk (subCM (subCT false
    (subNS srcDb.data srcSchema.data tgtDb.data tgtSchema.data ddl.data)))

/- ─────────────────────────── data model ─────────────────────────── -/

/-- One role grant on a table, as collected by
`fetch_role_grants_on_table` (source lines 309-325). -/
structure GrantRecord where
  role : String
  privilege : String
deriving DecidableEq, Repr

/-- What became of one attempted grant or ownership transfer: executed,
swallowed because the error message indicates pre-existing equivalent
state, or logged as a warning. -/
inductive GrantDisp where
  | applied
  | skippedExisting
  | warnedFailed
deriving DecidableEq, Repr

/-- Per-table migration outcome tuple `(table, src_cnt, tgt_cnt, status)`
appended to `summary` by `migrate_tables_with_user_stage`. -/
structure SummaryEntry where
  table : String
  srcCnt : Int
  tgtCnt : Int
  status : String
deriving DecidableEq, Repr

/-- Namespace configuration passed to the migration function. -/
structure MigCfg where
  sourceDb : String
  sourceSchema : String
  targetDb : String
  targetSchema : String
deriving DecidableEq, Repr

/-- Side effects the per-table pipeline performs, in execution order.
Constructors suffixed `Src` act on the source account, `Tgt` on the
target account. -/
inductive Act where
  | readRowcountSrc
  | readColumnsSrc
  | readDdlSrc
  | execTgtDdl (ddl : String)
  | readColumnsTgt
  | readOwnerSrc
  | readGrantsSrc
  | removeSrcStage (p : String)
  | removeTgtStage (p : String)
  | unloadSrc (p : String)
  | listSrcStage (p : String)
  | getFromSrcStage (p : String)
  | putToTgtStage (p : String)
  | listTgtStage (p : String)
  | copyIntoTgt (p : String)
  | ensureRoleTgt (r : String)
  | grantTgt (r priv : String)
  | transferOwnershipTgt (r : String)
  | readRowcountTgt
deriving DecidableEq, Repr

/-- Results of the target-side grant/ownership statements for one table:
the per-grant `CREATE ROLE IF NOT EXISTS` and `GRANT` results consumed by
`apply_role_grants`, and the two statements of `transfer_ownership`. -/
structure GrantEnv where
  ensureRoleResults : List (Except String Unit)
  grantResults : List (Except String Unit)
  ensureOwnerRole : Except String Unit
  ownershipResult : Except String Unit
deriving Repr

/-- The remote world as one table's pipeline observes it: one field per
call site that can raise (`Except`), plain values for calls whose
failures the source swallows internally (`_list_user_stage`,
`_clean_stage_path`, the GET fallback).  Fields are listed in the order
the pipeline consumes them (source lines 441-642). -/
structure TableEnv where
  timestamp : String
  rowcountSrc : Except String Nat
  srcColumns : Except String (List String)
  ddlSrc : Except String String
  execDdl : Except String Unit
  tgtColumns : Except String (List String)
  showOwner : Except String (Option String)
  fetchGrants : Except String (List GrantRecord)
  unload : Except String Unit
  srcStageFiles : List String
  localPrep : Except String Unit
  listLocalDir : Except String (List String)
  localSizes : Except String Nat
  putFiles : Except String Unit
  tgtStageFiles : List String
  copyInto : Except String Unit
  grantEnv : GrantEnv
  rowcountTgt : Except String Nat
deriving Repr

/- ───────────────── grants and ownership (lines 327-356, 607-621) ───────────────── -/

/-- Python truthiness of `show_table_owner(...) or "ACCOUNTADMIN"`
(source line 472): `None` and the empty string both fall back. -/
def pyOrOwner : Option String → String
  | none => "ACCOUNTADMIN"
  | some s => if s.isEmpty then "ACCOUNTADMIN" else s

/-- `apply_role_grants` (lines 330-342) swallows a failed `GRANT` whose
message contains one of these phrases (compared lowercased). -/
def grantErrSwallowed (e : String) : Bool :=
  containsSub "already exists" (strLower e) || containsSub "dependent grant" (strLower e)

/-- `transfer_ownership` (lines 344-356) swallows a failed ownership
grant whose message says the role already owns the table. -/
def ownershipErrSwallowed (e : String) : Bool :=
  containsSub "already owns" (strLower e)

/-- `apply_role_grants` (source lines 330-342): for each grant, ensure
the role exists (an exception here propagates out of the loop), then
attempt the `GRANT`; a failed `GRANT` never raises — it is either
swallowed (pre-existing state) or logged as a warning.  The remote
results are supplied positionally by `ens` and `grs` (missing entries
default to success).  Returns the acts performed and, on normal return,
the per-grant dispositions. -/
def apply_role_grants :
    List GrantRecord → List (Except String Unit) → List (Except String Unit) →
    List Act × Except String (List GrantDisp)
  | [], _, _ => ([], .ok [])
  | g :: gs, ens, grs =>
    match ens.headD (.ok ()) with
    | .error e => ([Act.ensureRoleTgt g.role], .error e)
    | .ok _ =>
      let d :=
        match grs.headD (.ok ()) with
        | .ok _ => GrantDisp.applied
        | .error e =>
          if grantErrSwallowed e then GrantDisp.skippedExisting else GrantDisp.warnedFailed
      match apply_role_grants gs ens.tail grs.tail with
      | (acts, .error e) =>
        (Act.ensureRoleTgt g.role :: Act.grantTgt g.role g.privilege :: acts, .error e)
      | (acts, .ok ds) =>
        (Act.ensureRoleTgt g.role :: Act.grantTgt g.role g.privilege :: acts, .ok (d :: ds))

/-- `transfer_ownership` (source lines 344-356): ensure the owner role
exists (an exception propagates), then attempt the ownership grant; an
"already owns" failure is swallowed, any other failure only warns. -/
def transfer_ownership (owner : String) (ensureRes res : Except String Unit) :
    List Act × Except String GrantDisp :=
  match ensureRes with
  | .error e => ([Act.ensureRoleTgt owner], .error e)
  | .ok _ =>
    ([Act.ensureRoleTgt owner, Act.transferOwnershipTgt owner],
     .ok (match res with
          | .ok _ => GrantDisp.applied
          | .error e =>
            if ownershipErrSwallowed e then GrantDisp.skippedExisting
            else GrantDisp.warnedFailed))

/-- Step 7 of the pipeline (source lines 607-621): replay grants if any
were captured, then transfer ownership; the whole step sits in a
`try/except` that turns any escaped exception into a warning, so the
step returns acts and dispositions but can never fail the table. -/
def grantPhase (grants : List GrantRecord) (owner : String) (g : GrantEnv) :
    List Act × List GrantDisp :=
  if grants.isEmpty then
    match transfer_ownership owner g.ensureOwnerRole g.ownershipResult with
    | (acts, .error _) => (acts, [])
    | (acts, .ok d) => (acts, [d])
  else
    match apply_role_grants grants g.ensureRoleResults g.grantResults with
    | (acts, .error _) => (acts, [])
    | (acts, .ok ds) =>
      match transfer_ownership owner g.ensureOwnerRole g.ownershipResult with
      | (acts2, .error _) => (acts ++ acts2, ds)
      | (acts2, .ok d) => (acts ++ acts2, ds ++ [d])

/- ───────────────── staging prefixes (lines 482-484) ───────────────── -/

/-- Source-side staging subpath `migrate_export_{timestamp}_{table}`. -/
def src_stage_subpath (ts table : String) : String :=
  "migrate_export_" ++ ts ++ "_" ++ table

/-- Target-side staging subpath `migrate_import_{timestamp}_{table}`. -/
def tgt_stage_subpath (ts table : String) : String :=
  "migrate_import_" ++ ts ++ "_" ++ table

/-- `_list_user_stage` and the wildcard `GET` address staged files with
the pattern `@~/{subpath}*`: a staged file is touched by the pattern
exactly when the subpath is a prefix of the file's name. -/
def stagePatternTouches (subpath file : String) : Bool :=
  List.isPrefixOf subpath.data file.data

/- ──────────── the per-table pipeline (lines 441-642) ──────────── -/

/-- The `try` body of one iteration of the migration loop (source lines
442-635), with the acts performed so far carried along; `.error`
corresponds to an exception reaching the per-table `except` handler. -/
def runPipeline (cfg : MigCfg) (table : String) (env : TableEnv) :
    Except (String × List Act) (SummaryEntry × List Act) :=
  let a0 := [Act.readRowcountSrc]
  match env.rowcountSrc with
  | .error e => .error (e, a0)
  | .ok srcCntBefore =>
    let a1 := a0 ++ [Act.readColumnsSrc]
    match env.srcColumns with
    | .error e => .error (e, a1)
    | .ok srcCols =>
      if srcCols.isEmpty then .ok (⟨table, -1, -1, "NO_COLUMNS"⟩, a1)
      else
        let a2 := a1 ++ [Act.readDdlSrc]
        match env.ddlSrc with
        | .error e => .error (e, a2)
        | .ok ddlS =>
          let ddlT := rewrite_table_ddl ddlS cfg.sourceDb cfg.sourceSchema
            cfg.targetDb cfg.targetSchema
          let a3 := a2 ++ [Act.execTgtDdl ddlT]
          match env.execDdl with
          | .error e => .error (e, a3)
          | .ok _ =>
            let a4 := a3 ++ [Act.readColumnsTgt]
            match env.tgtColumns with
            | .error e => .error (e, a4)
            | .ok _tgtCols =>
              let a5 := a4 ++ [Act.readOwnerSrc]
              match env.showOwner with
              | .error e => .error (e, a5)
              | .ok ownerOpt =>
                let ownerRole := pyOrOwner ownerOpt
                let a6 := a5 ++ [Act.readGrantsSrc]
                match env.fetchGrants with
                | .error e => .error (e, a6)
                | .ok roleGrants =>
                  if srcCntBefore = 0 then .ok (⟨table, 0, 0, "OK_EMPTY"⟩, a6)
                  else
                    let srcSub := src_stage_subpath env.timestamp table
                    let tgtSub := tgt_stage_subpath env.timestamp table
                    let a7 := a6 ++ [Act.removeSrcStage srcSub,
                      Act.removeTgtStage tgtSub, Act.unloadSrc srcSub]
                    match env.unload with
                    | .error e => .error (e, a7)
                    | .ok _ =>
                      let a8 := a7 ++ [Act.listSrcStage srcSub]
                      if env.srcStageFiles.isEmpty then
                        .error ("Unloaded 0 files but source rowcount is nonzero", a8)
                      else
                        match env.localPrep with
                        | .error e => .error (e, a8)
                        | .ok _ =>
                          let a9 := a8 ++ [Act.getFromSrcStage srcSub]
                          match env.listLocalDir with
                          | .error e => .error (e, a9)
                          | .ok downloaded =>
                            if downloaded.isEmpty then
                              .error ("Failed to download any files from stage", a9)
                            else
                              match env.localSizes with
                              | .error e => .error (e, a9)
                              | .ok _ =>
                                let a10 := a9 ++ [Act.putToTgtStage tgtSub]
                                match env.putFiles with
                                | .error e => .error (e, a10)
                                | .ok _ =>
                                  let a11 := a10 ++ [Act.listTgtStage tgtSub]
                                  if env.tgtStageFiles.isEmpty then
                                    .error ("No files found in target stage", a11)
                                  else
                                    let a12 := a11 ++ [Act.copyIntoTgt tgtSub]
                                    match env.copyInto with
                                    | .error e => .error (e, a12)
                                    | .ok _ =>
                                      let gp := grantPhase roleGrants ownerRole env.grantEnv
                                      let a13 := a12 ++ gp.1 ++ [Act.readRowcountTgt]
                                      match env.rowcountTgt with
                                      | .error e => .error (e, a13)
                                      | .ok tCnt =>
                                        let status :=
                                          if srcCntBefore = tCnt then "OK"
                                          else "ROWCOUNT_MISMATCH"
                                        .ok (⟨table, (srcCntBefore : Int),
                                          (tCnt : Int), status⟩, a13)

/-- One iteration of the migration loop including its `except` handler
(source lines 441-642): any exception is caught at the table boundary
and recorded as an `ERROR` outcome with sentinel counts. -/
def migrate_one (cfg : MigCfg) (table : String) (env : TableEnv) :
    SummaryEntry × List Act :=
  match runPipeline cfg table env with
  | .ok r => r
  | .error (_, acts) => (⟨table, -1, -1, "ERROR"⟩, acts)

/-- `migrate_tables_with_user_stage`: process the tables in order,
appending one summary entry per table. -/
def migrate_tables (cfg : MigCfg) : List (String × TableEnv) → List SummaryEntry
  | [] => []
  | (t, env) :: rest => (migrate_one cfg t env).1 :: migrate_tables cfg rest

/- ──────────── summary rendering (lines 745-748) ──────────── -/

/-- Insert thousands separators into a reversed digit list. -/
def commaRev : List Char → List Char
  | a :: b :: c :: d :: rest => a :: b :: c :: ',' :: commaRev (d :: rest)
  | l => l

/-- Python `f"{n:,}"` for a nonnegative count. -/
def natWithCommas (n : Nat) : String :=
  String.mk ((commaRev (toString n).data.reverse).reverse)

/-- The summary report cell for a recorded count (source lines 747-748):
formatted with separators when nonnegative, else the string `ERROR`. -/
def displayCount (c : Int) : String :=
  if 0 ≤ c then natWithCommas c.toNat else "ERROR"

/- ──────────── main: configuration and pre-flight (lines 648-709) ──────────── -/

/-- Configured source database (USER CONFIG section). -/
def SOURCE_DB : String := "COBRA_DEMO_DB"

/-- Configured source schema. -/
def SOURCE_SCHEMA : String := "COBRA_DEMO_SCHEMA"

/-- Target database defaults to the source database. -/
def TARGET_DB : String := SOURCE_DB

/-- Target schema defaults to the source schema. -/
def TARGET_SCHEMA : String := SOURCE_SCHEMA

/-- The namespace configuration `main` passes to the migration. -/
def defaultCfg : MigCfg := ⟨SOURCE_DB, SOURCE_SCHEMA, TARGET_DB, TARGET_SCHEMA⟩

/-- The dictionary `{t.upper(): t for t in list_tables(...)}` built on
source line 689, as a lookup: the last catalog entry with the requested
upper-cased name wins, as in Python dict comprehension. -/
def lookupUpper (catalog : List String) (u : String) : Option String :=
  catalog.foldl (fun acc t => if strUpper t == u then some t else acc) none

/-- `missing` (source line 691): requested names, upper-cased, that do
not resolve in the source catalog. -/
def resolveMissing (catalog requested : List String) : List String :=
  (requested.map strUpper).filter (fun u => (lookupUpper catalog u).isNone)

/-- `tables = [available[t] for t in wanted]` (source line 694). -/
def resolvedTables (catalog requested : List String) : List String :=
  (requested.map strUpper).map (fun u => (lookupUpper catalog u).getD u)

/-- Python `repr` of a list of strings, as interpolated into the fatal
message by `f"... : {missing}"`. -/
def pyStrListInner : List String → String
  | [] => ""
  | [s] => sqs ++ s ++ sqs
  | s :: rest => sqs ++ s ++ sqs ++ ", " ++ pyStrListInner rest

/-- Python `repr` of a list of strings, brackets included. -/
def pyStrList (l : List String) : String := "[" ++ pyStrListInner l ++ "]"

/-- The fatal message of source line 693. -/
def missingMsg (db sch : String) (missing : List String) : String :=
  "These tables do not exist in " ++ db ++ "." ++ sch ++ ": " ++ pyStrList missing

/-- Run-level effects of `main`, in execution order. -/
inductive RunAct where
  | connectSource
  | connectTarget
  | ensureTargetDbSchema (db sch : String)
  | setSourceContext
  | listSourceTables
  | fatal (msg : String)
  | migrateTable (t : String)
deriving DecidableEq, Repr

/-- The order of run-level effects in `main` (source lines 671-709):
connect to both accounts, create/ensure the target database and schema,
set the source context, list the source catalog, then either abort
fatally on unresolved table names or migrate the resolved tables. -/
def mainTrace (catalog requested : List String) : List RunAct :=
  [RunAct.connectSource, RunAct.connectTarget,
   RunAct.ensureTargetDbSchema TARGET_DB TARGET_SCHEMA,
   RunAct.setSourceContext, RunAct.listSourceTables] ++
  (let missing := resolveMissing catalog requested
   if missing.isEmpty then
     (resolvedTables catalog requested).map RunAct.migrateTable
   else [RunAct.fatal (missingMsg SOURCE_DB SOURCE_SCHEMA missing)])

/- ──────────────── concrete environments used by witnesses ──────────────── -/

/-- A grant environment in which every statement succeeds. -/
def grantEnvOk : GrantEnv := ⟨[], [], .ok (), .ok ()⟩

/-- A table environment in which every remote call succeeds and both row
counts are 3. -/
def envAllOk : TableEnv :=
  ⟨"20250101T000000Z", .ok 3, .ok ["A", "B"], .ok "ddl", .ok (), .ok ["A", "B"],
   .ok (some "OWNER_ROLE"), .ok [⟨"R1", "SELECT"⟩], .ok (), ["f1"], .ok (),
   .ok ["f1"], .ok 100, .ok (), ["f1"], .ok (), grantEnvOk, .ok 3⟩

/-- Like `envAllOk` but the post-export stage listing finds no files. -/
def envExportLost : TableEnv := { envAllOk with srcStageFiles := [] }

/-- Like `envAllOk` but the source table has no columns. -/
def envNoCols : TableEnv := { envAllOk with srcColumns := .ok [] }

/-- Like `envAllOk` but the source table has zero rows. -/
def envEmptyTable : TableEnv := { envAllOk with rowcountSrc := .ok 0 }

/-- A table environment whose very first remote call raises. -/
def envBoom : TableEnv := { envAllOk with rowcountSrc := .error "boom" }

/-- A two-table run whose second table fails. -/
def envsC3 : List (String × TableEnv) := [("A", envAllOk), ("B", envBoom)]

/- ──────────────── concrete DDL used by the rewriter counterexample ──────────────── -/

/-- A DDL whose column default contains the text `create table x` inside a
string literal. -/
def c5ddlInput : String :=
  "CREATE TABLE " ++ dqs ++ "D" ++ dqs ++ "." ++ dqs ++ "S" ++ dqs ++ "." ++
  dqs ++ "T" ++ dqs ++ " (A VARCHAR DEFAULT " ++ sqs ++ "create table x" ++ sqs ++ ")"

/-- The column definition part of `c5ddlInput`. -/
def c5colDef : String :=
  "(A VARCHAR DEFAULT " ++ sqs ++ "create table x" ++ sqs ++ ")"

/-- What the rewriter actually produces from `c5ddlInput`: the column
default's text has been rewritten. -/
def c5output : String :=
  "CREATE OR REPLACE TABLE " ++ dqs ++ "TD" ++ dqs ++ "." ++ dqs ++ "TS" ++
  dqs ++ "." ++ dqs ++ "T" ++ dqs ++ " (A VARCHAR DEFAULT " ++ sqs ++
  "CREATE OR REPLACE TABLE x" ++ sqs ++ ")"

/-- The fixed text a namespace-reference match must begin with. -/
def nsTrig (db sch : List Char) : List Char :=
  dqc :: (db ++ (dqc :: '.' :: dqc :: (sch ++ [dqc, '.', dqc])))

/-- The text of an embedded comment attribute, `COMMENT`, optional
whitespace, `=`, optional whitespace, and a quoted value. -/
def commentAttr (ws1 ws2 inner : List Char) : List Char :=
  cmPat ++ (ws1 ++ ('=' :: (ws2 ++ (sqc :: (inner ++ [sqc])))))

/-- Whether the word `COMMENT` begins (case-insensitively) at some
position inside the first list, the occurrence possibly extending into
the second list. -/
def cmStartsIn : List Char → List Char → Bool
  | [], _ => false
  | c :: cs, r => ciHead cmPat (c :: (cs ++ r)) || cmStartsIn cs r

/- ═══════════════════════════ theorems ═══════════════════════════ -/

/- ──────────── general string lemmas ──────────── -/

/-- Strings are equal exactly when their character lists are. -/
theorem str_eq_iff_data (s t : String) : s = t ↔ s.data = t.data :=
  ⟨fun h => h ▸ rfl, fun h => by cases s; cases t; exact congrArg String.mk (by simpa using h)⟩

/-- A list is a prefix of itself extended. -/
theorem isPre_append (p b : List Char) : List.isPrefixOf p (p ++ b) = true := by
  induction p with
  | nil => simp [List.isPrefixOf]
  | cons c cs ih => simp [List.isPrefixOf, ih]

/-- The empty pattern occurs in every list. -/
theorem hasSub_nil_pat (l : List Char) : hasSub [] l = true := by
  cases l <;> simp [hasSub, List.isPrefixOf]

/-- A pattern occurs in any list that displays it. -/
theorem hasSub_decomp (p a b : List Char) : hasSub p (a ++ (p ++ b)) = true := by
  induction a with
  | nil =>
    cases p with
    | nil => simpa using hasSub_nil_pat b
    | cons q qs => simp [hasSub, isPre_append]
  | cons c a ih => simp [hasSub, ih]

/-- Every member of a list is displayed by the Python list rendering. -/
theorem inner_decomp (u : String) (l : List String) (h : u ∈ l) :
    ∃ x y, (pyStrListInner l).data = x ++ (u.data ++ y) := by
  induction l with
  | nil => cases h
  | cons s rest ih =>
    rcases List.mem_cons.mp h with rfl | h
    · cases rest with
      | nil =>
        exact ⟨[sqc], [sqc], by simp [pyStrListInner, sqs, String.data_append]⟩
      | cons r rs =>
        refine ⟨[sqc], [sqc] ++ (", " ++ pyStrListInner (r :: rs)).data, ?_⟩
        simp [pyStrListInner, sqs, String.data_append]
    · obtain ⟨x, y, hxy⟩ := ih h
      cases rest with
      | nil => cases h
      | cons r rs =>
        refine ⟨(sqs ++ s ++ sqs ++ ", ").data ++ x, y, ?_⟩
        simp [pyStrListInner, sqs, String.data_append, hxy]

/-- Every missing table name is contained in the fatal message text. -/
theorem missing_in_msg (db sch u : String) (l : List String) (h : u ∈ l) :
    containsSub u (missingMsg db sch l) = true := by
  obtain ⟨x, y, hxy⟩ := inner_decomp u l h
  have hd : (missingMsg db sch l).data =
      (("These tables do not exist in " ++ db ++ "." ++ sch ++ ": " ++ "[").data ++ x) ++
        (u.data ++ (y ++ "]".data)) := by
    simp [missingMsg, pyStrList, String.data_append, hxy]
  rw [containsSub, hd]
  exact hasSub_decomp u.data _ _

/- ──────────── lemmas about the substitution scans ──────────── -/

/-- Case-insensitive equality is reflexive. -/
theorem lcEq_self (a : Char) : lcEq a a = true := by simp [lcEq]

/-- A pattern case-insensitively matches itself extended. -/
theorem ciHead_self_append (p r : List Char) : ciHead p (p ++ r) = true := by
  induction p with
  | nil => rfl
  | cons c cs ih => simp [ciHead, lcEq_self, ih]

/-- Splitting a case-insensitive head match over an append. -/
theorem ciHead_append_split (p q cs : List Char) :
    ciHead (p ++ q) cs = (ciHead p cs && ciHead q (cs.drop p.length)) := by
  induction p generalizing cs with
  | nil => simp [ciHead]
  | cons c ps ih =>
    cases cs with
    | nil => simp [ciHead]
    | cons d ds => simp [ciHead, ih, Bool.and_assoc]

/-- A successful namespace match begins with the fixed trigger text. -/
theorem matchNS_trig (db sch cs : List Char) (x : List Char × Nat)
    (hm : matchNS db sch cs = some x) : ciHead (nsTrig db sch) cs = true := by
  unfold matchNS at hm
  repeat' split at hm <;> try cases hm
  all_goals simp_all [nsTrig, ciHead, ciHead_append_split, lcEq_self]

/-- A successful comment match begins with the word `COMMENT`. -/
theorem matchCM_trig (cs : List Char) (n : Nat) (hm : matchCM cs = some n) :
    ciHead cmPat cs = true := by
  unfold matchCM at hm
  repeat' split at hm <;> try cases hm
  all_goals simp_all

/-- A successful `CREATE TABLE` match begins with that text. -/
theorem matchCT_trig (cs : List Char) (hm : matchCT cs = true) :
    ciHead ctPat cs = true := by
  simp [matchCT] at hm
  exact hm.1

/-- Occurrence in a cons decomposes into head match or tail occurrence. -/
theorem hasSubCI_cons_false (pat : List Char) (c : Char) (cs : List Char)
    (h : hasSubCI pat (c :: cs) = false) :
    ciHead pat (c :: cs) = false ∧ hasSubCI pat cs = false := by
  simpa [hasSubCI] using h

/-- Text with no occurrence of `COMMENT` passes substitution (3) unchanged. -/
theorem subCM_id (cs : List Char) (h : hasSubCI cmPat cs = false) : subCM cs = cs := by
  induction cs with
  | nil => simp [subCM]
  | cons c cs ih =>
    obtain ⟨h1, h2⟩ := hasSubCI_cons_false _ _ _ h
    have hm : matchCM (c :: cs) = none := by
      cases hmc : matchCM (c :: cs) with
      | none => rfl
      | some n => exact absurd (matchCM_trig _ _ hmc) (by simp [h1])
    rw [subCM, hm]
    simp [ih h2]

/-- Text with no occurrence of `CREATE TABLE` passes substitution (2)
unchanged, whatever the boundary flag. -/
theorem subCT_id (cs : List Char) (h : hasSubCI ctPat cs = false) (b : Bool) :
    subCT b cs = cs := by
  induction cs generalizing b with
  | nil => simp [subCT]
  | cons c cs ih =>
    obtain ⟨h1, h2⟩ := hasSubCI_cons_false _ _ _ h
    have hm : matchCT (c :: cs) = false := by
      cases hmc : matchCT (c :: cs)
      · rfl
      · exact absurd (matchCT_trig _ hmc) (by simp [h1])
    rw [subCT]
    simp [hm, ih h2]

/-- Text with no occurrence of the namespace trigger passes substitution
(1) unchanged. -/
theorem subNS_id (db sch tdb tsch cs : List Char)
    (h : hasSubCI (nsTrig db sch) cs = false) : subNS db sch tdb tsch cs = cs := by
  induction cs with
  | nil => simp [subNS]
  | cons c cs ih =>
    obtain ⟨h1, h2⟩ := hasSubCI_cons_false _ _ _ h
    have hm : matchNS db sch (c :: cs) = none := by
      cases hmc : matchNS db sch (c :: cs) with
      | none => rfl
      | some x => exact absurd (matchNS_trig _ _ _ _ hmc) (by simp [h1])
    rw [subNS, hm]
    simp [ih h2]

/-- A namespace match can only start at a double quote. -/
theorem matchNS_none_head (db sch : List Char) (c : Char) (rest : List Char)
    (h : (c == dqc) = false) : matchNS db sch (c :: rest) = none := by
  simp [matchNS, h]

/-- Substitution (1) copies any quote-free region verbatim. -/
theorem subNS_skip (db sch tdb tsch l r : List Char)
    (hl : ∀ c ∈ l, (c == dqc) = false) :
    subNS db sch tdb tsch (l ++ r) = l ++ subNS db sch tdb tsch r := by
  induction l with
  | nil => simp
  | cons c l ih =>
    have hc : (c == dqc) = false := hl c (by simp)
    have hrest : ∀ x ∈ l, (x == dqc) = false := fun x hx => hl x (by simp [hx])
    rw [List.cons_append, subNS, matchNS_none_head db sch c (l ++ r) hc]
    simp [ih hrest]

/-- The captured object name is the quote-free run before the closing
quote. -/
theorem takeWhile_no_dq (obj rest : List Char) (hnq : ∀ c ∈ obj, (c == dqc) = false) :
    (obj ++ dqc :: rest).takeWhile (fun x => x != dqc) = obj := by
  induction obj with
  | nil => simp [List.takeWhile]
  | cons c l ih =>
    have hc : (c == dqc) = false := hnq c (by simp)
    have hrest : ∀ x ∈ l, (x == dqc) = false := fun x hx => hnq x (by simp [hx])
    have ih2 : List.takeWhile (fun x => !(x == dqc)) (l ++ dqc :: rest) = l := by
      simpa [bne] using ih hrest
    simp [List.takeWhile_cons, bne, hc, ih2]

/-- The namespace matcher succeeds on an exactly-written source reference
and consumes precisely the reference. -/
theorem matchNS_at_ref (db sch obj rest : List Char)
    (hobj : obj.isEmpty = false) (hnq : ∀ c ∈ obj, (c == dqc) = false) :
    matchNS db sch
      (dqc :: (db ++ (dqc :: '.' :: dqc :: (sch ++ (dqc :: '.' :: dqc :: (obj ++ (dqc :: rest))))))) =
    some (obj, 1 + db.length + 3 + sch.length + 3 + obj.length + 1) := by
  have htw := takeWhile_no_dq obj rest hnq
  simp [matchNS, ciHead_self_append, List.drop_left, htw, hobj]

/-- Substitution (1) rewrites an exactly-written source reference to the
target namespace and continues after it. -/
theorem subNS_at_ref (db sch tdb tsch obj rest : List Char)
    (hobj : obj.isEmpty = false) (hnq : ∀ c ∈ obj, (c == dqc) = false) :
    subNS db sch tdb tsch
      (dqc :: (db ++ (dqc :: '.' :: dqc :: (sch ++ (dqc :: '.' :: dqc :: (obj ++ (dqc :: rest))))))) =
    nsRepl tdb tsch obj ++ subNS db sch tdb tsch rest := by
  rw [subNS, matchNS_at_ref db sch obj rest hobj hnq]
  dsimp only
  have hsplit : (db ++ (dqc :: '.' :: dqc :: (sch ++ (dqc :: '.' :: dqc :: (obj ++ (dqc :: rest)))))) =
      (db ++ (dqc :: '.' :: dqc :: (sch ++ (dqc :: '.' :: dqc :: (obj ++ [dqc]))))) ++ rest := by
    simp
  rw [hsplit]
  have hl : (db ++ (dqc :: '.' :: dqc :: (sch ++ (dqc :: '.' :: dqc :: (obj ++ [dqc]))))).length =
      1 + db.length + 3 + sch.length + 3 + obj.length + 1 - 1 := by
    simp [List.length_append]
    omega
  rw [← hl, List.drop_left]

/-- Substitution (2) at a matching position replaces and resumes after
the matched text. -/
theorem subCT_cons_match (c : Char) (cs : List Char) (h : matchCT (c :: cs) = true) :
    subCT false (c :: cs) = ctRepl ++ subCT true (cs.drop 11) := by
  rw [subCT]
  simp [h]

/-- Substitution (2) on text that begins with `CREATE TABLE` followed by a
space, with no further occurrence. -/
theorem subCT_at_head (R : List Char) (h : hasSubCI ctPat (' ' :: R) = false) :
    subCT false (ctPat ++ (' ' :: R)) = ctRepl ++ (' ' :: R) := by
  have hd : (ctPat ++ (' ' :: R)).drop 12 = ' ' :: R := by
    rw [show 12 = ctPat.length from rfl, List.drop_left]
  have hmct : matchCT (ctPat ++ (' ' :: R)) = true := by
    simp [matchCT, ciHead_self_append, hd]
    decide
  have e1 : ctPat ++ (' ' :: R) =
      'C' :: (['R','E','A','T','E',' ','T','A','B','L','E'] ++ (' ' :: R)) := rfl
  rw [e1] at hmct
  rw [e1, subCT_cons_match _ _ hmct]
  congr 1
  rw [show (['R','E','A','T','E',' ','T','A','B','L','E'] ++ (' ' :: R)).drop 11 = ' ' :: R from rfl]
  exact subCT_id _ h true

/-- `takeWhile` consumes exactly a run of satisfying characters up to
the first failing one. -/
theorem takeWhile_sat (p : Char → Bool) (a : List Char) (b : Char) (r : List Char)
    (ha : ∀ c ∈ a, p c = true) (hb : p b = false) :
    (a ++ b :: r).takeWhile p = a := by
  induction a with
  | nil => simp [List.takeWhile_cons, hb]
  | cons c l ih =>
    have hc : p c = true := ha c (by simp)
    simp [List.takeWhile_cons, hc, ih (fun x hx => ha x (by simp [hx]))]

/-- Index search for the closing quote, with the scan's running index. -/
theorem findIdx_sq_aux (inner rest : List Char) (h : ∀ c ∈ inner, (c == sqc) = false) :
    ∀ i, List.findIdx? (fun x => x == sqc) (inner ++ sqc :: rest) i = some (i + inner.length) := by
  induction inner with
  | nil => intro i; simp [List.findIdx?]
  | cons c l ih =>
    intro i
    have hc : (c == sqc) = false := h c (by simp)
    have ihh := ih (fun x hx => h x (by simp [hx])) (i + 1)
    have harr : i + (c :: l).length = i + 1 + l.length := by simp [List.length_cons]; omega
    simp only [List.cons_append, List.findIdx?, hc, Bool.false_eq_true, if_false,
      List.append_eq, harr]
    exact ihh

/-- The lazy `.*?'` stops at the first quote after a quote-free run. -/
theorem findIdx_sq (inner rest : List Char) (h : ∀ c ∈ inner, (c == sqc) = false) :
    List.findIdx? (fun x => x == sqc) (inner ++ sqc :: rest) = some inner.length := by
  simpa using findIdx_sq_aux inner rest h 0

/-- Substitution (3) copies verbatim any region in which no occurrence
of the word `COMMENT` begins. -/
theorem subCM_skip (l r : List Char) (h : cmStartsIn l r = false) :
    subCM (l ++ r) = l ++ subCM r := by
  induction l with
  | nil => simp
  | cons c cs ih =>
    have h1 : ciHead cmPat (c :: (cs ++ r)) = false ∧ cmStartsIn cs r = false := by
      simpa [cmStartsIn] using h
    have hm : matchCM (c :: (cs ++ r)) = none := by
      cases hmc : matchCM (c :: (cs ++ r)) with
      | none => rfl
      | some n => exact absurd (matchCM_trig _ _ hmc) (by simp [h1.1])
    rw [List.cons_append, subCM, hm]
    simp [ih h1.2]

/-- The comment matcher succeeds on an exactly-written comment attribute
and consumes precisely the attribute. -/
theorem matchCM_at_attr (ws1 ws2 inner rest : List Char)
    (hws1 : ∀ c ∈ ws1, isPySpace c = true) (hws2 : ∀ c ∈ ws2, isPySpace c = true)
    (hinner : ∀ c ∈ inner, (c == sqc) = false) :
    matchCM (cmPat ++ (ws1 ++ ('=' :: (ws2 ++ (sqc :: (inner ++ (sqc :: rest))))))) =
      some (7 + ws1.length + 1 + ws2.length + 1 + inner.length + 1) := by
  have hd7 : (cmPat ++ (ws1 ++ ('=' :: (ws2 ++ (sqc :: (inner ++ (sqc :: rest))))))).drop 7 =
      ws1 ++ ('=' :: (ws2 ++ (sqc :: (inner ++ (sqc :: rest))))) := by
    rw [show (7 : Nat) = cmPat.length from rfl]
    exact List.drop_left _ _
  have h1 := takeWhile_sat isPySpace ws1 '=' (ws2 ++ (sqc :: (inner ++ (sqc :: rest))))
    hws1 (by decide)
  have h2 := takeWhile_sat isPySpace ws2 sqc (inner ++ (sqc :: rest)) hws2 (by decide)
  have h3 := findIdx_sq inner rest hinner
  simp [matchCM, ciHead_self_append, hd7, h1, h2, h3, List.drop_left]

/-- Substitution (3) deletes an exactly-written comment attribute and
resumes after it. -/
theorem subCM_at_attr (ws1 ws2 inner rest : List Char)
    (hws1 : ∀ c ∈ ws1, isPySpace c = true) (hws2 : ∀ c ∈ ws2, isPySpace c = true)
    (hinner : ∀ c ∈ inner, (c == sqc) = false) :
    subCM (cmPat ++ (ws1 ++ ('=' :: (ws2 ++ (sqc :: (inner ++ (sqc :: rest))))))) =
      subCM rest := by
  have hm := matchCM_at_attr ws1 ws2 inner rest hws1 hws2 hinner
  have e1 : cmPat ++ (ws1 ++ ('=' :: (ws2 ++ (sqc :: (inner ++ (sqc :: rest)))))) =
      'C' :: (['O','M','M','E','N','T'] ++
        (ws1 ++ ('=' :: (ws2 ++ (sqc :: (inner ++ (sqc :: rest))))))) := rfl
  rw [e1] at hm
  rw [e1, subCM, hm]
  dsimp only
  congr 1
  have hsplit : (['O','M','M','E','N','T'] ++
      (ws1 ++ ('=' :: (ws2 ++ (sqc :: (inner ++ (sqc :: rest))))))) =
      (['O','M','M','E','N','T'] ++
        (ws1 ++ ('=' :: (ws2 ++ (sqc :: (inner ++ [sqc])))))) ++ rest := by
    simp
  rw [hsplit]
  have hl : (['O','M','M','E','N','T'] ++
      (ws1 ++ ('=' :: (ws2 ++ (sqc :: (inner ++ [sqc])))))).length =
      7 + ws1.length + 1 + ws2.length + 1 + inner.length + 1 - 1 := by
    simp [List.length_append]
    omega
  rw [← hl, List.drop_left]

/- ──────────── lemmas about the pipeline ──────────── -/

/-- The summary has exactly one entry per requested table. -/
theorem migrate_tables_length (cfg : MigCfg) (envs : List (String × TableEnv)) :
    (migrate_tables cfg envs).length = envs.length := by
  induction envs with
  | nil => rfl
  | cons p rest ih => simp [migrate_tables, ih]

/-- Every recorded outcome has one of the five shapes the loop can
append: error and degenerate entries carry the sentinel counts, the
verified entries carry the captured source count and the re-read
destination count. -/
theorem migrate_one_shape (cfg : MigCfg) (t : String) (env : TableEnv) :
    (migrate_one cfg t env).1 = ⟨t, -1, -1, "ERROR"⟩ ∨
    (migrate_one cfg t env).1 = ⟨t, -1, -1, "NO_COLUMNS"⟩ ∨
    (migrate_one cfg t env).1 = ⟨t, 0, 0, "OK_EMPTY"⟩ ∨
    (∃ n : Nat, (migrate_one cfg t env).1 = ⟨t, (n : Int), (n : Int), "OK"⟩) ∨
    ∃ n m : Nat, (migrate_one cfg t env).1 =
      ⟨t, (n : Int), (m : Int), "ROWCOUNT_MISMATCH"⟩ ∧ n ≠ m := by
  unfold migrate_one
  rcases hrp : runPipeline cfg t env with ⟨e, acts⟩ | ⟨entry, acts⟩
  · left; simp
  · unfold runPipeline at hrp
    repeat' split at hrp
    all_goals simp_all
    all_goals obtain ⟨h1, -⟩ := hrp
    · exact .inr (.inr (.inr (.inl ⟨_, h1.symm⟩)))
    · exact .inr (.inr (.inr (.inr ⟨_, _, h1.symm, by assumption⟩)))

/- ═══════════════════════════ claims ═══════════════════════════ -/

/-- C1: for every table with nonzero source rows whose pipeline completes
without raising, the recorded outcome compares the destination row count
read after loading against the source row count captured at the analysis
step (the single pre-export read; the pipeline performs no fresh source
re-read), and the status is `OK` exactly when the two counts are equal,
otherwise `ROWCOUNT_MISMATCH`. -/
theorem rowcount_verification (cfg : MigCfg) (t : String) (env : TableEnv)
    (n m : Nat) (cols downloaded : List String)
    (h1 : env.rowcountSrc = .ok n) (h2 : n ≠ 0)
    (h3 : env.srcColumns = .ok cols) (h4 : cols.isEmpty = false)
    (h5 : ∃ d, env.ddlSrc = .ok d) (h6 : env.execDdl = .ok ())
    (h7 : ∃ tc, env.tgtColumns = .ok tc) (h8 : ∃ o, env.showOwner = .ok o)
    (h9 : ∃ gs, env.fetchGrants = .ok gs) (h10 : env.unload = .ok ())
    (h11 : env.srcStageFiles.isEmpty = false) (h12 : env.localPrep = .ok ())
    (h13 : env.listLocalDir = .ok downloaded) (h14 : downloaded.isEmpty = false)
    (h15 : ∃ sz, env.localSizes = .ok sz) (h16 : env.putFiles = .ok ())
    (h17 : env.tgtStageFiles.isEmpty = false) (h18 : env.copyInto = .ok ())
    (h19 : env.rowcountTgt = .ok m) :
    (migrate_one cfg t env).1 =
      ⟨t, (n : Int), (m : Int), if n = m then "OK" else "ROWCOUNT_MISMATCH"⟩ ∧
    ((migrate_one cfg t env).1.status = "OK" ↔ n = m) := by
  obtain ⟨d, h5⟩ := h5
  obtain ⟨tc, h7⟩ := h7
  obtain ⟨o, h8⟩ := h8
  obtain ⟨gs, h9⟩ := h9
  obtain ⟨sz, h15⟩ := h15
  constructor
  · simp [migrate_one, runPipeline, h1, h2, h3, h4, h5, h6, h7, h8, h9, h10,
      h11, h12, h13, h14, h15, h16, h17, h18, h19]
  · simp [migrate_one, runPipeline, h1, h2, h3, h4, h5, h6, h7, h8, h9, h10,
      h11, h12, h13, h14, h15, h16, h17, h18, h19]

/-- Witness for `rowcount_verification` at a concrete all-success
environment with three source and three destination rows. -/
theorem rowcount_verification_witness :
    (migrate_one defaultCfg "EMPLOYEES" envAllOk).1 =
      ⟨"EMPLOYEES", ((3 : Nat) : Int), ((3 : Nat) : Int),
        if (3 : Nat) = 3 then "OK" else "ROWCOUNT_MISMATCH"⟩ ∧
    ((migrate_one defaultCfg "EMPLOYEES" envAllOk).1.status = "OK" ↔ (3 : Nat) = 3) :=
  rowcount_verification defaultCfg "EMPLOYEES" envAllOk 3 3 ["A", "B"] ["f1"]
    rfl (by decide) rfl rfl ⟨"ddl", rfl⟩ rfl ⟨["A", "B"], rfl⟩
    ⟨some "OWNER_ROLE", rfl⟩ ⟨[⟨"R1", "SELECT"⟩], rfl⟩ rfl rfl rfl rfl rfl
    ⟨100, rfl⟩ rfl rfl rfl rfl

/-- C2: when the pre-export source row count is nonzero and the
post-export listing of the source staging prefix finds no files, the
pipeline raises and the table's recorded outcome is `ERROR`, never `OK`
or `OK_EMPTY`. -/
theorem export_zero_files_is_error (cfg : MigCfg) (t : String) (env : TableEnv)
    (n : Nat) (cols : List String) (d : String)
    (h1 : env.rowcountSrc = .ok n) (h2 : n ≠ 0)
    (h3 : env.srcColumns = .ok cols) (h4 : cols.isEmpty = false)
    (h5 : env.ddlSrc = .ok d) (h6 : env.execDdl = .ok ())
    (h7 : ∃ tc, env.tgtColumns = .ok tc) (h8 : ∃ o, env.showOwner = .ok o)
    (h9 : ∃ gs, env.fetchGrants = .ok gs) (h10 : env.unload = .ok ())
    (h11 : env.srcStageFiles = []) :
    runPipeline cfg t env = .error ("Unloaded 0 files but source rowcount is nonzero",
      [Act.readRowcountSrc, Act.readColumnsSrc, Act.readDdlSrc,
       Act.execTgtDdl (rewrite_table_ddl d cfg.sourceDb cfg.sourceSchema
         cfg.targetDb cfg.targetSchema),
       Act.readColumnsTgt, Act.readOwnerSrc, Act.readGrantsSrc,
       Act.removeSrcStage (src_stage_subpath env.timestamp t),
       Act.removeTgtStage (tgt_stage_subpath env.timestamp t),
       Act.unloadSrc (src_stage_subpath env.timestamp t),
       Act.listSrcStage (src_stage_subpath env.timestamp t)]) ∧
    (migrate_one cfg t env).1 = ⟨t, -1, -1, "ERROR"⟩ ∧
    (migrate_one cfg t env).1.status ≠ "OK" ∧
    (migrate_one cfg t env).1.status ≠ "OK_EMPTY" := by
  obtain ⟨tc, h7⟩ := h7
  obtain ⟨o, h8⟩ := h8
  obtain ⟨gs, h9⟩ := h9
  refine ⟨?_, ?_, ?_, ?_⟩ <;>
    simp [migrate_one, runPipeline, h1, h2, h3, h4, h5, h6, h7, h8, h9, h10, h11]

/-- Witness for `export_zero_files_is_error` at a concrete environment
whose export leaves no staged files. -/
theorem export_zero_files_is_error_witness :
    runPipeline defaultCfg "EMPLOYEES" envExportLost =
      .error ("Unloaded 0 files but source rowcount is nonzero",
      [Act.readRowcountSrc, Act.readColumnsSrc, Act.readDdlSrc,
       Act.execTgtDdl (rewrite_table_ddl "ddl" defaultCfg.sourceDb defaultCfg.sourceSchema
         defaultCfg.targetDb defaultCfg.targetSchema),
       Act.readColumnsTgt, Act.readOwnerSrc, Act.readGrantsSrc,
       Act.removeSrcStage (src_stage_subpath envExportLost.timestamp "EMPLOYEES"),
       Act.removeTgtStage (tgt_stage_subpath envExportLost.timestamp "EMPLOYEES"),
       Act.unloadSrc (src_stage_subpath envExportLost.timestamp "EMPLOYEES"),
       Act.listSrcStage (src_stage_subpath envExportLost.timestamp "EMPLOYEES")]) ∧
    (migrate_one defaultCfg "EMPLOYEES" envExportLost).1 = ⟨"EMPLOYEES", -1, -1, "ERROR"⟩ ∧
    (migrate_one defaultCfg "EMPLOYEES" envExportLost).1.status ≠ "OK" ∧
    (migrate_one defaultCfg "EMPLOYEES" envExportLost).1.status ≠ "OK_EMPTY" :=
  export_zero_files_is_error defaultCfg "EMPLOYEES" envExportLost 3 ["A", "B"] "ddl"
    rfl (by decide) rfl rfl rfl rfl ⟨["A", "B"], rfl⟩ ⟨some "OWNER_ROLE", rfl⟩
    ⟨[⟨"R1", "SELECT"⟩], rfl⟩ rfl rfl

/-- C3: any exception during one table's pipeline is caught at the table
boundary and recorded as an `ERROR` outcome for that table only; every
entry of the summary is computed from its own table's environment alone,
so subsequent tables are still processed, and the summary contains
exactly one entry per requested table. -/
theorem per_table_failure_isolation (cfg : MigCfg) (envs : List (String × TableEnv)) :
    (migrate_tables cfg envs).length = envs.length ∧
    ∀ i (h : i < envs.length),
      (migrate_tables cfg envs).get ⟨i, by rw [migrate_tables_length]; exact h⟩ =
        (migrate_one cfg (envs.get ⟨i, h⟩).1 (envs.get ⟨i, h⟩).2).1 ∧
      ∀ e acts, runPipeline cfg (envs.get ⟨i, h⟩).1 (envs.get ⟨i, h⟩).2 = .error (e, acts) →
        (migrate_tables cfg envs).get ⟨i, by rw [migrate_tables_length]; exact h⟩ =
          ⟨(envs.get ⟨i, h⟩).1, -1, -1, "ERROR"⟩ := by
  refine ⟨migrate_tables_length cfg envs, ?_⟩
  induction envs with
  | nil => intro i h; exact absurd h (Nat.not_lt_zero i)
  | cons p rest ih =>
    intro i h
    match i with
    | 0 =>
      refine ⟨rfl, ?_⟩
      intro e acts herr
      simp only [List.get] at herr
      simp [migrate_tables, migrate_one, herr]
    | Nat.succ j =>
      have hj : j < rest.length := Nat.lt_of_succ_lt_succ h
      exact ih j hj

/-- Witness for `per_table_failure_isolation` on a two-table run whose
second table raises on its very first remote call. -/
theorem per_table_failure_isolation_witness :
    (migrate_tables defaultCfg envsC3).length = envsC3.length ∧
    (migrate_tables defaultCfg envsC3).get ⟨1, by decide⟩ =
      (migrate_one defaultCfg (envsC3.get ⟨1, by decide⟩).1 (envsC3.get ⟨1, by decide⟩).2).1 ∧
    (migrate_tables defaultCfg envsC3).get ⟨1, by decide⟩ =
      ⟨(envsC3.get ⟨1, by decide⟩).1, -1, -1, "ERROR"⟩ := by
  refine ⟨(per_table_failure_isolation defaultCfg envsC3).1, ?_, ?_⟩
  · exact ((per_table_failure_isolation defaultCfg envsC3).2 1 (by decide)).1
  · exact ((per_table_failure_isolation defaultCfg envsC3).2 1 (by decide)).2 "boom"
      [Act.readRowcountSrc] rfl

/-- C4 counterexample: with requested table `GHOST` absent from a
source catalog holding only `EMPLOYEES`, the run does abort with a fatal
message naming `GHOST` and no table is migrated, but only after
connecting to the target account and creating/ensuring the target
database and schema: the claim's "before touching the target account"
is false. -/
theorem preflight_touches_target_first :
    mainTrace ["EMPLOYEES"] ["GHOST"] =
      [RunAct.connectSource, RunAct.connectTarget,
       RunAct.ensureTargetDbSchema TARGET_DB TARGET_SCHEMA,
       RunAct.setSourceContext, RunAct.listSourceTables,
       RunAct.fatal (missingMsg SOURCE_DB SOURCE_SCHEMA ["GHOST"])] ∧
    RunAct.ensureTargetDbSchema TARGET_DB TARGET_SCHEMA ∈
      (mainTrace ["EMPLOYEES"] ["GHOST"]).take 3 := by
  constructor
  · rfl
  · decide

/-- C4 (amended): when some requested name does not resolve
case-insensitively in the source catalog, the run aborts fatally with
every missing (upper-cased) name in the error message and no per-table
migration work starts — but only after the target account has been
connected and its database/schema ensured. -/
theorem preflight_missing_aborts (catalog requested : List String)
    (h : resolveMissing catalog requested ≠ []) :
    mainTrace catalog requested =
      [RunAct.connectSource, RunAct.connectTarget,
       RunAct.ensureTargetDbSchema TARGET_DB TARGET_SCHEMA,
       RunAct.setSourceContext, RunAct.listSourceTables,
       RunAct.fatal (missingMsg SOURCE_DB SOURCE_SCHEMA (resolveMissing catalog requested))] ∧
    (∀ t, RunAct.migrateTable t ∉ mainTrace catalog requested) ∧
    ∀ u ∈ resolveMissing catalog requested,
      containsSub u (missingMsg SOURCE_DB SOURCE_SCHEMA (resolveMissing catalog requested)) = true := by
  have hne : (resolveMissing catalog requested).isEmpty = false := by
    cases hm : resolveMissing catalog requested with
    | nil => exact absurd hm h
    | cons a l => rfl
  refine ⟨?_, ?_, ?_⟩
  · simp [mainTrace, hne]
  · intro t
    simp [mainTrace, hne]
  · intro u hu
    exact missing_in_msg _ _ _ _ hu

/-- Witness for `preflight_missing_aborts` with catalog `[EMPLOYEES]`
and request `[GHOST]`. -/
theorem preflight_missing_aborts_witness :
    resolveMissing ["EMPLOYEES"] ["GHOST"] ≠ [] ∧
    mainTrace ["EMPLOYEES"] ["GHOST"] =
      [RunAct.connectSource, RunAct.connectTarget,
       RunAct.ensureTargetDbSchema TARGET_DB TARGET_SCHEMA,
       RunAct.setSourceContext, RunAct.listSourceTables,
       RunAct.fatal (missingMsg SOURCE_DB SOURCE_SCHEMA
         (resolveMissing ["EMPLOYEES"] ["GHOST"]))] ∧
    RunAct.migrateTable "EMPLOYEES" ∉ mainTrace ["EMPLOYEES"] ["GHOST"] ∧
    containsSub "GHOST" (missingMsg SOURCE_DB SOURCE_SCHEMA
      (resolveMissing ["EMPLOYEES"] ["GHOST"])) = true := by
  have h : resolveMissing ["EMPLOYEES"] ["GHOST"] ≠ [] := by decide
  exact ⟨h, (preflight_missing_aborts _ _ h).1,
    (preflight_missing_aborts _ _ h).2.1 "EMPLOYEES",
    (preflight_missing_aborts _ _ h).2.2 "GHOST" (by decide)⟩

set_option maxHeartbeats 2000000 in
/-- C5 counterexample: the rewriter's substitutions are purely textual,
so a column definition whose default string literal contains the words
`create table` is altered: the claim's "alters nothing else — column
definitions ... are unchanged" is false. -/
theorem rewrite_ddl_alters_column_default :
    rewrite_table_ddl c5ddlInput "D" "S" "TD" "TS" = c5output ∧
    containsSub c5colDef c5ddlInput = true ∧
    containsSub c5colDef (rewrite_table_ddl c5ddlInput "D" "S" "TD" "TS") = false := by
  have hmain : rewrite_table_ddl c5ddlInput "D" "S" "TD" "TS" = c5output := by
    simp [rewrite_table_ddl, c5ddlInput, c5output, dqs, sqs, dqc, sqc,
      subNS, subCT, subCM, matchNS, matchCT, matchCM, ciHead, lcEq, isPySpace,
      isWordChar, cmPat, ctPat, ctRepl, nsRepl, String.data_append, str_eq_iff_data]
  refine ⟨hmain, by decide, ?_⟩
  rw [hmain]
  decide

/-- C5 (amended): on a DDL of the shape `CREATE TABLE` + one
exactly-written quoted source-namespace reference + a body containing an
embedded `COMMENT = '...'` attribute, the rewriter (1) rewrites the
reference to the target namespace with the object name preserved,
(2) forces `CREATE OR REPLACE TABLE`, and (3) strips the comment
attribute, leaving the rest of the body unchanged provided it contains
no further occurrence of the three textual patterns — the substitutions
are purely textual and apply anywhere in the string, including inside
string literals, so column definitions containing such text can be
altered. -/
theorem rewrite_ddl_three_substitutions
    (db sch tdb tsch obj body1 ws1 ws2 inner body2 : List Char)
    (hobj : obj.isEmpty = false)
    (hnq : ∀ c ∈ obj, (c == dqc) = false)
    (hws1 : ∀ c ∈ ws1, isPySpace c = true)
    (hws2 : ∀ c ∈ ws2, isPySpace c = true)
    (hinner : ∀ c ∈ inner, (c == sqc) = false)
    (hbody : hasSubCI (nsTrig db sch)
      (body1 ++ (commentAttr ws1 ws2 inner ++ body2)) = false)
    (hct : hasSubCI ctPat (' ' :: (nsRepl tdb tsch obj ++
      (body1 ++ (commentAttr ws1 ws2 inner ++ body2)))) = false)
    (hcm1 : cmStartsIn (ctRepl ++ (' ' :: (nsRepl tdb tsch obj ++ body1)))
      (commentAttr ws1 ws2 inner ++ body2) = false)
    (hcm2 : hasSubCI cmPat body2 = false) :
    rewrite_table_ddl
      (String.mk (ctPat ++ (' ' ::
        (dqc :: (db ++ (dqc :: '.' :: dqc :: (sch ++ (dqc :: '.' :: dqc ::
          (obj ++ (dqc :: (body1 ++ (commentAttr ws1 ws2 inner ++ body2))))))))))))
      (String.mk db) (String.mk sch) (String.mk tdb) (String.mk tsch) =
    String.mk (ctRepl ++ (' ' :: (nsRepl tdb tsch obj ++ (body1 ++ body2)))) := by
  unfold rewrite_table_ddl
  congr 1
  have h1 : subNS db sch tdb tsch (ctPat ++ (' ' ::
      (dqc :: (db ++ (dqc :: '.' :: dqc :: (sch ++ (dqc :: '.' :: dqc ::
        (obj ++ (dqc :: (body1 ++ (commentAttr ws1 ws2 inner ++ body2)))))))))))
      = ctPat ++ (' ' :: (nsRepl tdb tsch obj ++
          (body1 ++ (commentAttr ws1 ws2 inner ++ body2)))) := by
    have hskip : ∀ c ∈ ctPat ++ [' '], (c == dqc) = false := by decide
    rw [show (ctPat ++ (' ' :: (dqc :: (db ++ (dqc :: '.' :: dqc :: (sch ++
        (dqc :: '.' :: dqc :: (obj ++ (dqc ::
          (body1 ++ (commentAttr ws1 ws2 inner ++ body2))))))))))) =
      (ctPat ++ [' ']) ++ (dqc :: (db ++ (dqc :: '.' :: dqc :: (sch ++
        (dqc :: '.' :: dqc :: (obj ++ (dqc ::
          (body1 ++ (commentAttr ws1 ws2 inner ++ body2))))))))) by simp]
    rw [subNS_skip db sch tdb tsch _ _ hskip]
    rw [subNS_at_ref db sch tdb tsch obj
      (body1 ++ (commentAttr ws1 ws2 inner ++ body2)) hobj hnq]
    rw [subNS_id db sch tdb tsch (body1 ++ (commentAttr ws1 ws2 inner ++ body2)) hbody]
    simp
  dsimp only
  rw [h1]
  rw [subCT_at_head _ hct]
  rw [show ctRepl ++ (' ' :: (nsRepl tdb tsch obj ++
      (body1 ++ (commentAttr ws1 ws2 inner ++ body2)))) =
    (ctRepl ++ (' ' :: (nsRepl tdb tsch obj ++ body1))) ++
      (commentAttr ws1 ws2 inner ++ body2) by simp]
  rw [subCM_skip _ _ hcm1]
  rw [show commentAttr ws1 ws2 inner ++ body2 =
    cmPat ++ (ws1 ++ ('=' :: (ws2 ++ (sqc :: (inner ++ (sqc :: body2))))))
    by simp [commentAttr]]
  rw [subCM_at_attr ws1 ws2 inner body2 hws1 hws2 hinner]
  rw [subCM_id body2 hcm2]
  simp

/-- Witness for `rewrite_ddl_three_substitutions` on a small concrete
DDL over the namespaces `D.S` to `TD.TS`, with the comment attribute
`COMMENT ='tbl'` between the column list and the trailing text: the
output keeps both body parts and drops the comment. -/
theorem rewrite_ddl_three_substitutions_witness :
    rewrite_table_ddl
      (String.mk (ctPat ++ (' ' ::
        (dqc :: ("D".data ++ (dqc :: '.' :: dqc :: ("S".data ++ (dqc :: '.' :: dqc ::
          ("T".data ++ (dqc :: (" (X INT) ".data ++
            (commentAttr [' '] [] "tbl".data ++ " Y".data))))))))))))
      (String.mk "D".data) (String.mk "S".data) (String.mk "TD".data) (String.mk "TS".data) =
    String.mk (ctRepl ++ (' ' :: (nsRepl "TD".data "TS".data "T".data ++
      (" (X INT) ".data ++ " Y".data)))) :=
  rewrite_ddl_three_substitutions "D".data "S".data "TD".data "TS".data "T".data
    " (X INT) ".data [' '] [] "tbl".data " Y".data
    (by decide) (by decide) (by decide) (by decide) (by decide) (by decide)
    (by decide) (by decide) (by decide)

/-- C6 counterexample: the staging prefixes of the distinct tables `A`
and `AB`, exported in the same UTC second, are such that the wildcard
pattern used for listing and retrieval of `A`'s files matches a staged
file belonging to `AB`: the claim's "never touches staged files
belonging to a different table or run" is false. -/
theorem stage_wildcard_crosses_tables :
    ("A" : String) ≠ "AB" ∧
    stagePatternTouches (src_stage_subpath "20250101T000000Z" "A")
      (src_stage_subpath "20250101T000000Z" "AB") = true ∧
    stagePatternTouches (tgt_stage_subpath "20250101T000000Z" "A")
      (tgt_stage_subpath "20250101T000000Z" "AB") = true := by
  refine ⟨by decide, by decide, by decide⟩

/-- C6 (amended): for timestamps of equal length (the format is a fixed
16 characters), two staging subpaths are equal exactly when both the
timestamp and the table name coincide — so distinct tables of one run,
and any tables of runs whose per-table timestamps differ, never get
equal prefixes, and an export prefix never equals an import prefix; but
because the underlying timestamp has only second granularity and
listing/retrieval is by prefix wildcard, staged files can still be
touched across tables or runs when one prefix extends another. -/
theorem stage_subpaths_injective (ts1 ts2 t1 t2 : String) (h : ts1.length = ts2.length) :
    (src_stage_subpath ts1 t1 = src_stage_subpath ts2 t2 ↔ ts1 = ts2 ∧ t1 = t2) ∧
    (tgt_stage_subpath ts1 t1 = tgt_stage_subpath ts2 t2 ↔ ts1 = ts2 ∧ t1 = t2) ∧
    src_stage_subpath ts1 t1 ≠ tgt_stage_subpath ts2 t2 := by
  refine ⟨⟨?_, ?_⟩, ⟨?_, ?_⟩, ?_⟩
  · intro he
    have hd : (src_stage_subpath ts1 t1).data = (src_stage_subpath ts2 t2).data := he ▸ rfl
    simp only [src_stage_subpath, String.data_append, List.append_assoc] at hd
    simp at hd
    obtain ⟨h1, h2⟩ := List.append_inj hd h
    exact ⟨(str_eq_iff_data ts1 ts2).2 h1,
      (str_eq_iff_data t1 t2).2 (by simpa using h2)⟩
  · rintro ⟨rfl, rfl⟩; rfl
  · intro he
    have hd : (tgt_stage_subpath ts1 t1).data = (tgt_stage_subpath ts2 t2).data := he ▸ rfl
    simp only [tgt_stage_subpath, String.data_append, List.append_assoc] at hd
    simp at hd
    obtain ⟨h1, h2⟩ := List.append_inj hd h
    exact ⟨(str_eq_iff_data ts1 ts2).2 h1,
      (str_eq_iff_data t1 t2).2 (by simpa using h2)⟩
  · rintro ⟨rfl, rfl⟩; rfl
  · intro he
    have hd : (src_stage_subpath ts1 t1).data = (tgt_stage_subpath ts2 t2).data := he ▸ rfl
    simp [src_stage_subpath, tgt_stage_subpath, String.data_append] at hd

/-- Witness for `stage_subpaths_injective` at a concrete timestamp and
the tables `A` and `B`. -/
theorem stage_subpaths_injective_witness :
    (src_stage_subpath "20250101T000000Z" "A" = src_stage_subpath "20250101T000000Z" "B" ↔
      ("20250101T000000Z" : String) = "20250101T000000Z" ∧ ("A" : String) = "B") ∧
    (tgt_stage_subpath "20250101T000000Z" "A" = tgt_stage_subpath "20250101T000000Z" "B" ↔
      ("20250101T000000Z" : String) = "20250101T000000Z" ∧ ("A" : String) = "B") ∧
    src_stage_subpath "20250101T000000Z" "A" ≠ tgt_stage_subpath "20250101T000000Z" "B" :=
  stage_subpaths_injective "20250101T000000Z" "20250101T000000Z" "A" "B" rfl

/-- C7: when the source column list is empty, the recorded outcome is
`NO_COLUMNS` and all remaining steps are skipped: the trace consists of
exactly the two analysis reads, so no DDL is fetched and none is
executed against the target. -/
theorem no_columns_short_circuit (cfg : MigCfg) (t : String) (env : TableEnv)
    (n : Nat) (h1 : env.rowcountSrc = .ok n) (h2 : env.srcColumns = .ok []) :
    migrate_one cfg t env =
      (⟨t, -1, -1, "NO_COLUMNS"⟩, [Act.readRowcountSrc, Act.readColumnsSrc]) ∧
    (∀ d, Act.execTgtDdl d ∉ (migrate_one cfg t env).2) ∧
    Act.readDdlSrc ∉ (migrate_one cfg t env).2 := by
  refine ⟨?_, ?_, ?_⟩ <;> simp [migrate_one, runPipeline, h1, h2]

/-- Witness for `no_columns_short_circuit` at a concrete environment
whose source table has no columns. -/
theorem no_columns_short_circuit_witness :
    migrate_one defaultCfg "EMPLOYEES" envNoCols =
      (⟨"EMPLOYEES", -1, -1, "NO_COLUMNS"⟩, [Act.readRowcountSrc, Act.readColumnsSrc]) ∧
    Act.execTgtDdl "x" ∉ (migrate_one defaultCfg "EMPLOYEES" envNoCols).2 ∧
    Act.readDdlSrc ∉ (migrate_one defaultCfg "EMPLOYEES" envNoCols).2 :=
  ⟨(no_columns_short_circuit defaultCfg "EMPLOYEES" envNoCols 3 rfl rfl).1,
   (no_columns_short_circuit defaultCfg "EMPLOYEES" envNoCols 3 rfl rfl).2.1 "x",
   (no_columns_short_circuit defaultCfg "EMPLOYEES" envNoCols 3 rfl rfl).2.2⟩

/-- C8: the recorded outcome of a table never depends on the results of
the grant/ownership replay; a failed `GRANT` whose message (lowercased)
indicates pre-existing equivalent state (`already exists`, `dependent
grant`) is swallowed, a failed ownership grant saying `already owns` is
swallowed, and any other such failure only warns — `apply_role_grants`
and `transfer_ownership` return normally on them. -/
theorem grant_failures_never_change_status (cfg : MigCfg) (t : String) (env : TableEnv)
    (g g' : GrantEnv) (gr : GrantRecord) (e owner : String) :
    (migrate_one cfg t { env with grantEnv := g }).1 =
      (migrate_one cfg t { env with grantEnv := g' }).1 ∧
    (apply_role_grants [gr] [Except.ok ()] [Except.error e]).2 =
      .ok [if grantErrSwallowed e then GrantDisp.skippedExisting
           else GrantDisp.warnedFailed] ∧
    (transfer_ownership owner (.ok ()) (.error e)).2 =
      .ok (if ownershipErrSwallowed e then GrantDisp.skippedExisting
           else GrantDisp.warnedFailed) := by
  refine ⟨?_, ?_, ?_⟩
  · obtain ⟨ts, rc, cols, ddl, exe, tcols, own, grs, unl, sf, lp, ld, ls, pf, tf, ci, ge, rt⟩ := env
    unfold migrate_one runPipeline
    rcases rc with e1 | n1
    · rfl
    rcases cols with e1 | cols1
    · rfl
    rcases cols1 with _ | ⟨c0, cols1⟩
    · rfl
    rcases ddl with e1 | d1
    · rfl
    rcases exe with e1 | u1
    · rfl
    rcases tcols with e1 | tc1
    · rfl
    rcases own with e1 | o1
    · rfl
    rcases grs with e1 | g1
    · rfl
    rcases n1 with _ | n1
    · rfl
    rcases unl with e1 | u2
    · rfl
    rcases sf with _ | ⟨f0, sf⟩
    · rfl
    rcases lp with e1 | u3
    · rfl
    rcases ld with e1 | dl1
    · rfl
    rcases dl1 with _ | ⟨l0, dl1⟩
    · rfl
    rcases ls with e1 | s1
    · rfl
    rcases pf with e1 | u4
    · rfl
    rcases tf with _ | ⟨t0, tf⟩
    · rfl
    rcases ci with e1 | u5
    · rfl
    rcases rt with e1 | m1
    · rfl
    rfl
  · simp [apply_role_grants]
  · simp [transfer_ownership]

/-- C9: every outcome whose status is `ERROR` or `NO_COLUMNS` carries
the sentinel `-1` for both recorded row counts, and the summary report
renders both cells as the string `ERROR`. -/
theorem error_outcomes_carry_sentinels (cfg : MigCfg) (t : String) (env : TableEnv)
    (h : (migrate_one cfg t env).1.status = "ERROR" ∨
         (migrate_one cfg t env).1.status = "NO_COLUMNS") :
    (migrate_one cfg t env).1.srcCnt = -1 ∧ (migrate_one cfg t env).1.tgtCnt = -1 ∧
    displayCount (migrate_one cfg t env).1.srcCnt = "ERROR" ∧
    displayCount (migrate_one cfg t env).1.tgtCnt = "ERROR" := by
  rcases migrate_one_shape cfg t env with h1 | h1 | h1 | ⟨n, h1⟩ | ⟨n, m, h1, hne⟩ <;>
    rw [h1] at h ⊢ <;> simp_all [displayCount]

/-- Witness for `error_outcomes_carry_sentinels` at an environment whose
first remote call raises. -/
theorem error_outcomes_carry_sentinels_witness :
    (migrate_one defaultCfg "EMPLOYEES" envBoom).1.srcCnt = -1 ∧
    (migrate_one defaultCfg "EMPLOYEES" envBoom).1.tgtCnt = -1 ∧
    displayCount (migrate_one defaultCfg "EMPLOYEES" envBoom).1.srcCnt = "ERROR" ∧
    displayCount (migrate_one defaultCfg "EMPLOYEES" envBoom).1.tgtCnt = "ERROR" :=
  error_outcomes_carry_sentinels defaultCfg "EMPLOYEES" envBoom (Or.inl rfl)

/-- C10: for a table with zero source rows the outcome is `OK_EMPTY`,
the owner role and grants are captured (the two source reads occur) but
never replayed: the trace is exactly the seven analysis/creation steps,
with no role creation, no grant, no ownership transfer — and no export,
upload, or load either. -/
theorem empty_table_skips_grant_replay (cfg : MigCfg) (t : String) (env : TableEnv)
    (cols : List String) (o : Option String) (gs : List GrantRecord)
    (h1 : env.rowcountSrc = .ok 0)
    (h2 : env.srcColumns = .ok cols) (h3 : cols.isEmpty = false)
    (h4 : ∃ d, env.ddlSrc = .ok d) (h5 : env.execDdl = .ok ())
    (h6 : ∃ tc, env.tgtColumns = .ok tc)
    (h7 : env.showOwner = .ok o) (h8 : env.fetchGrants = .ok gs) :
    (migrate_one cfg t env).1 = ⟨t, 0, 0, "OK_EMPTY"⟩ ∧
    Act.readOwnerSrc ∈ (migrate_one cfg t env).2 ∧
    Act.readGrantsSrc ∈ (migrate_one cfg t env).2 ∧
    (∀ r, Act.ensureRoleTgt r ∉ (migrate_one cfg t env).2) ∧
    (∀ r p, Act.grantTgt r p ∉ (migrate_one cfg t env).2) ∧
    (∀ r, Act.transferOwnershipTgt r ∉ (migrate_one cfg t env).2) ∧
    (∀ p, Act.unloadSrc p ∉ (migrate_one cfg t env).2) ∧
    (∀ p, Act.putToTgtStage p ∉ (migrate_one cfg t env).2) ∧
    (∀ p, Act.copyIntoTgt p ∉ (migrate_one cfg t env).2) := by
  obtain ⟨d, h4⟩ := h4
  obtain ⟨tc, h6⟩ := h6
  refine ⟨?_, ?_, ?_, ?_, ?_, ?_, ?_, ?_, ?_⟩ <;>
    simp [migrate_one, runPipeline, h1, h2, h3, h4, h5, h6, h7, h8]

/-- Witness for `empty_table_skips_grant_replay` at a concrete
zero-row environment. -/
theorem empty_table_skips_grant_replay_witness :
    (migrate_one defaultCfg "EMPLOYEES" envEmptyTable).1 = ⟨"EMPLOYEES", 0, 0, "OK_EMPTY"⟩ ∧
    Act.readOwnerSrc ∈ (migrate_one defaultCfg "EMPLOYEES" envEmptyTable).2 ∧
    Act.readGrantsSrc ∈ (migrate_one defaultCfg "EMPLOYEES" envEmptyTable).2 ∧
    Act.ensureRoleTgt "R1" ∉ (migrate_one defaultCfg "EMPLOYEES" envEmptyTable).2 ∧
    Act.grantTgt "R1" "SELECT" ∉ (migrate_one defaultCfg "EMPLOYEES" envEmptyTable).2 ∧
    Act.transferOwnershipTgt "OWNER_ROLE" ∉ (migrate_one defaultCfg "EMPLOYEES" envEmptyTable).2 ∧
    Act.unloadSrc "p" ∉ (migrate_one defaultCfg "EMPLOYEES" envEmptyTable).2 ∧
    Act.putToTgtStage "p" ∉ (migrate_one defaultCfg "EMPLOYEES" envEmptyTable).2 ∧
    Act.copyIntoTgt "p" ∉ (migrate_one defaultCfg "EMPLOYEES" envEmptyTable).2 := by
  have h := empty_table_skips_grant_replay defaultCfg "EMPLOYEES" envEmptyTable
    ["A", "B"] (some "OWNER_ROLE") [⟨"R1", "SELECT"⟩] rfl rfl rfl ⟨"ddl", rfl⟩ rfl
    ⟨["A", "B"], rfl⟩ rfl rfl
  exact ⟨h.1, h.2.1, h.2.2.1, h.2.2.2.1 "R1", h.2.2.2.2.1 "R1" "SELECT",
    h.2.2.2.2.2.1 "OWNER_ROLE", h.2.2.2.2.2.2.1 "p", h.2.2.2.2.2.2.2.1 "p",
    h.2.2.2.2.2.2.2.2 "p"⟩
